import Mathlib

/-!
Shallow embedding of the command-execution core of i3 (src/src/commands.c):
the criteria-matching engine, the tiling resize algorithm, and the migration
verification harness.  C floats/doubles are modelled as exact rationals; the
layout tree, regex engine and process-spawning collaborators (spec §6) are
external and appear as explicit inputs.
-/

namespace I3

/-- A compiled regex.  The regex engine is an external collaborator (spec §6);
only the source pattern text lives in the data model (pattern equality is by
source string).  Regex evaluation is passed around as a function
`rm : Regex → String → Bool` where matching is needed. -/
structure Regex where
  pattern : String
deriving DecidableEq, Repr

/-- The window data attached to a container (external entity, spec §3):
the fields the window predicates of a Match inspect. -/
structure Window where
  wclass : String
  winstance : String
  wrole : String
  wtitle : String
  wapplication : String
  wid : Nat
deriving DecidableEq, Repr

/-- Container type tag (CT_WORKSPACE / CT_FLOATING_CON / other). -/
inductive ConType
  | ct_workspace
  | ct_floating_con
  | ct_normal
deriving DecidableEq, Repr

/-- Fullscreen mode of a container (CF_NONE / CF_OUTPUT / CF_GLOBAL). -/
inductive FullscreenMode
  | cf_none
  | cf_output
  | cf_global
deriving DecidableEq, Repr

/-- A container (external entity, spec §3), restricted to the fields the
command layer reads: pointer identity (modelled as a Nat identity token),
mark, associated window, parent identity, type tag and fullscreen mode. -/
structure Con where
  conId : Nat
  mark : Option String
  window : Option Window
  parentId : Nat
  ctype : ConType
  fullscreen_mode : FullscreenMode
deriving DecidableEq, Repr

/-- Tri-state dock predicate of a Match (spec §3: unset / match-dock-only /
exclude-dock). -/
inductive DockState
  | dock_unset
  | dock_only
  | dock_exclude
deriving DecidableEq, Repr

/-- Tri-state floating predicate of a Match (spec §3). -/
inductive FloatingState
  | float_unset
  | float_only
  | float_exclude
deriving DecidableEq, Repr

/-- A Match: the filter specification of one command invocation (spec §3,
struct Match).  `class` and `instance` are Lean keywords, hence the `m`
prefixes on those two field names; the remaining names follow the source. -/
structure Match where
  mclass : Option Regex
  minstance : Option Regex
  title : Option Regex
  application : Option Regex
  role : Option Regex
  mark : Option Regex
  id : Option Nat
  con_id : Option Nat
  dock : DockState
  floating : FloatingState
  insert_where : Option Nat
deriving DecidableEq, Repr

/-- Modelled from the spec: `match_is_empty` lives in src/match.c, which is
not among the given sources (commands.c only calls it).  Spec §3: "a Match
with all predicates absent is the empty match". -/
def match_is_empty (m : Match) : Bool :=
  m.mclass.isNone && m.minstance.isNone && m.title.isNone &&
  m.application.isNone && m.role.isNone && m.mark.isNone &&
  m.id.isNone && m.con_id.isNone && m.dock == .dock_unset &&
  m.floating == .float_unset && m.insert_where.isNone

/-- Modelled from the spec: `match_matches_window` lives in src/match.c,
which is not among the given sources.  Spec §4.1 item 3: "keep iff every
present window predicate (class, instance, role, title, application,
windowId) matches — predicates not present are vacuously satisfied".
`rm` is the external regex engine. -/
def match_matches_window (rm : Regex → String → Bool) (m : Match) (w : Window) : Bool :=
  (match m.mclass with | none => true | some r => rm r w.wclass) &&
  (match m.minstance with | none => true | some r => rm r w.winstance) &&
  (match m.role with | none => true | some r => rm r w.wrole) &&
  (match m.title with | none => true | some r => rm r w.wtitle) &&
  (match m.application with | none => true | some r => rm r w.wapplication) &&
  (match m.id with | none => true | some i => i == w.wid)

/-- The per-candidate keep/drop decision of `cmd_criteria_match_windows`
(commands.c lines 369-388): the con_id branch, then the
`else if (mark set && con has mark && regex matches)` branch, then the
window branch (drop if no window, else `match_matches_window`).  Note that
when the mark regex is set and the candidate has a mark but the regex does
NOT match, the C `else if` condition is false and control falls through to
the window branch. -/
def keep_candidate (rm : Regex → String → Bool) (m : Match) (c : Con) : Bool :=
  match m.con_id with
  | some cid => c.conId == cid
  | none =>
    if (match m.mark, c.mark with
        | some mr, some cm => rm mr cm
        | _, _ => false) then
      true
    else
      match c.window with
      | none => false
      | some w => match_matches_window rm m w

/-- `cmd_criteria_match_windows` (commands.c lines 346-397): rebuilds the
owindows list keeping, in order, exactly the candidates `keep_candidate`
accepts (the TAILQ is filtered in place preserving insertion order). -/
def cmd_criteria_match_windows (rm : Regex → String → Bool) (m : Match)
    (owindows : List Con) : List Con :=
  owindows.filter (keep_candidate rm m)

/-- The HANDLE_EMPTY_MATCH macro (commands.c lines 21-28): when the match is
empty, the working set is replaced by the singleton list holding the
currently focused container; otherwise it is left as resolved. -/
def handle_empty_match (m : Match) (focused : Con) (owindows : List Con) : List Con :=
  if match_is_empty m then [focused] else owindows

/-- The working set a container-scoped command operates on: criteria matching
over the full container collection (cmd_criteria_init copies all_cons,
cmd_criteria_match_windows filters), then HANDLE_EMPTY_MATCH. -/
def working_set (rm : Regex → String → Bool) (m : Match) (focused : Con)
    (all_cons : List Con) : List Con :=
  handle_empty_match m focused (cmd_criteria_match_windows rm m all_cons)

/-- Split orientation of a container (HORIZ / VERT). -/
inductive Orientation
  | horiz
  | vert
deriving DecidableEq, Repr

/-- Which branch of the tiling resize returned (commands.c lines 587-627).
`wrongDirection` and `noOtherCon` are the two early-return failures; both
produce the reply string of a failed command.  `resized` and `atMinimum`
fall through to tree_render and the success reply. -/
inductive ResizeOutcome
  | wrongDirection
  | noOtherCon
  | resized
  | atMinimum
deriving DecidableEq, Repr

/-- The JSON reply string cmd_resize returns for each tiling outcome
(commands.c lines 595, 605, 633). -/
def resize_reply : ResizeOutcome → String
  | .wrongDirection => "\x7b\"sucess\": false\x7d"
  | .noOtherCon => "\x7b\"sucess\": false\x7d"
  | .resized => "\x7b\"success\": true\x7d"
  | .atMinimum => "\x7b\"success\": true\x7d"

/-- DBL_EPSILON of IEEE-754 binary64, the epsilon cmd_resize passes to
definitelyGreaterThan (commands.c lines 619-620), as an exact rational. -/
def DBL_EPSILON : ℚ := 1 / 2 ^ 52

/-- `definitelyGreaterThan` (commands.c lines 36-38): a is definitely
greater than b when (a - b) exceeds max(|a|,|b|) * epsilon.  Machine floats
are modelled as exact rationals. -/
def definitelyGreaterThan (a b epsilon : ℚ) : Bool :=
  decide ((a - b) > (if |a| < |b| then |b| else |a|) * epsilon)

/-- The tiling branch of `cmd_resize` (commands.c lines 563-627) from the
point where the ancestor ascent has resolved the parent split container.
The layout tree is external (spec §6), so the resolved parent's orientation,
its child count, the focused chain's percent and the percent of the sibling
selected by the direction (TAILQ_PREV for up/left, TAILQ_NEXT otherwise;
`none` when no such sibling exists) are explicit inputs.  `ppt` is the
percent-point delta after the shrink negation (lines 544-547).  Returns the
branch taken together with the final (current, other) percents; nothing
else (no rect) is mutated on this path. -/
def resize_tiling (direction : String) (ppt : Int) (orientation : Orientation)
    (children : Nat) (current_percent : ℚ) (other_percent : Option ℚ) :
    ResizeOutcome × ℚ × Option ℚ :=
  let percentage : ℚ := 1 / children
  if (orientation == .horiz && (direction == "up" || direction == "down")) ||
     (orientation == .vert && (direction == "left" || direction == "right")) then
    (.wrongDirection, current_percent, other_percent)
  else
    match other_percent with
    | none => (.noOtherCon, current_percent, none)
    | some other0 =>
      let cur := if current_percent = 0 then percentage else current_percent
      let other := if other0 = 0 then percentage else other0
      let new_current_percent := cur + (ppt : ℚ) / 100
      let new_other_percent := other - (ppt : ℚ) / 100
      if definitelyGreaterThan new_current_percent (5/100) DBL_EPSILON &&
         definitelyGreaterThan new_other_percent (5/100) DBL_EPSILON then
        (.resized, new_current_percent, some new_other_percent)
      else
        (.atMinimum, cur, some other)

/-- A captured stackframe of the migration harness (commands.c lines 73-78):
a Match snapshot plus the saved argument array.  The C array entry stays
NULL when the passed parameter was NULL while n_args is still incremented
(lines 125-127), so arguments are `Option String` and the list length is
n_args.  `match` is a Lean keyword, hence the field name `smatch`. -/
structure Stackframe where
  smatch : Match
  args : List (Option String)
deriving DecidableEq, Repr

/-- `re_differ` (commands.c lines 157-162): two regex predicates differ when
exactly one is NULL, or both are set with different pattern strings. -/
def re_differ : Option Regex → Option Regex → Bool
  | none, some _ => true
  | some _, none => true
  | some r1, some r2 => r1.pattern != r2.pattern
  | none, none => false

/-- `str_differ` (commands.c lines 164-169): NULL vs non-NULL differs; two
non-NULL strings differ iff strcmp does. -/
def str_differ : Option String → Option String → Bool
  | none, some _ => true
  | some _, none => true
  | some s1, some s2 => s1 != s2
  | none, none => false

/-- The Match comparison of one frame pair in cmd_MIGRATION_validate
(commands.c lines 281-291): the five value fields compared with !=, the six
regex predicates compared with re_differ. -/
def match_differs (n o : Match) : Bool :=
  n.dock != o.dock || n.id != o.id || n.con_id != o.con_id ||
  n.floating != o.floating || n.insert_where != o.insert_where ||
  re_differ n.title o.title || re_differ n.application o.application ||
  re_differ n.mclass o.mclass || re_differ n.minstance o.minstance ||
  re_differ n.mark o.mark || re_differ n.role o.role

/-- The whole comparison of one frame pair in cmd_MIGRATION_validate
(commands.c lines 281-309): Match fields, then n_args, then the arguments
element-wise with str_differ. -/
def frame_differs (n o : Stackframe) : Bool :=
  match_differs n.smatch o.smatch || n.args.length != o.args.length ||
  (n.args.zip o.args).any (fun p => str_differ p.1 p.2)

/-- Result of cmd_MIGRATION_validate: OK, or the count mismatch failure
(no frame index), or the first differing frame's index. -/
inductive ValidateResult
  | ok
  | countMismatch
  | frameMismatch (i : Nat)
deriving DecidableEq, Repr

/-- The frame-by-frame loop of cmd_MIGRATION_validate (commands.c lines
278-312), carrying the current frame index: stops at the first differing
pair and reports its index. -/
def validate_loop : Nat → List Stackframe → List Stackframe → ValidateResult
  | _, [], _ => .ok
  | _, _ :: _, [] => .ok
  | i, n :: ns, o :: os =>
    if frame_differs n o then .frameMismatch i else validate_loop (i + 1) ns os

/-- `cmd_MIGRATION_validate` (commands.c lines 262-314) on the two captured
sequences: count comparison first (FAIL with no index on mismatch), then
the positional frame comparison. -/
def cmd_MIGRATION_validate (news olds : List Stackframe) : ValidateResult :=
  if news.length != olds.length then .countMismatch
  else validate_loop 0 news olds

/-- The harness capture state (commands.c lines 72-82): the migration_test
flag and the two stackframe buffers. -/
structure MigrationState where
  migration_test : Bool
  old_stackframes : List Stackframe
  new_stackframes : List Stackframe
deriving DecidableEq, Repr

/-- `cmd_MIGRATION_enable` (commands.c lines 86-105): sets the flag and
frees every frame of both buffers, from any prior state. -/
def cmd_MIGRATION_enable (_s : MigrationState) : MigrationState :=
  { migration_test := true, old_stackframes := [], new_stackframes := [] }

/-- The nagbar-tracking state: `migration_pid` (commands.c line 171, with
`none` standing for the C sentinel -1) plus a ghost count of diagnostic
processes actually running, used to state the at-most-one invariant. -/
structure NagbarState where
  migration_pid : Option Nat
  outstanding : Nat
deriving DecidableEq, Repr

/-- The events the nagbar tracker reacts to: a validation FAIL calling
cmd_MIGRATION_start_nagbar (with the fork outcome: `none` when fork()
fails, otherwise the child pid), and the SIGCHLD delivery running
nagbar_exited (`normal` is WIFEXITED). -/
inductive NagbarEvent
  | fail (forkResult : Option Nat)
  | childExit (normal : Bool)
deriving DecidableEq, Repr

/-- One step of the nagbar tracker.  `fail`: cmd_MIGRATION_start_nagbar
(commands.c lines 211-260) returns immediately when migration_pid is
already set; otherwise it forks — on failure migration_pid keeps the
sentinel, on success the child pid is recorded and one process is running.
`childExit`: nagbar_exited (lines 178-192) observes the termination (so
the process is no longer running) but resets migration_pid only when the
child exited normally (the non-WIFEXITED path returns early). -/
def nagbar_step (s : NagbarState) : NagbarEvent → NagbarState
  | .fail forkResult =>
    if s.migration_pid.isSome then s
    else
      match forkResult with
      | none => s
      | some pid => { migration_pid := some pid, outstanding := s.outstanding + 1 }
  | .childExit normal =>
    if normal then { migration_pid := none, outstanding := s.outstanding - 1 }
    else { s with outstanding := s.outstanding - 1 }

/-- States of the nagbar tracker reachable from the initial state
(migration_pid = -1, no diagnostic process running). -/
inductive NagbarReachable : NagbarState → Prop
  | init : NagbarReachable ⟨none, 0⟩
  | step (s : NagbarState) (e : NagbarEvent) :
      NagbarReachable s → NagbarReachable (nagbar_step s e)

/-- `cmd_focus` (commands.c lines 1062-1123), with the per-window
workspace-switch mechanics external: returns the reply string and the list
of container identities the loop focuses.  The fullscreen guard (lines
1065-1070) runs first; the empty-match error (lines 1074-1082) runs next;
otherwise each working-set entry is focused in order (entries whose
workspace lookup fails are skipped — the skip predicate is an input since
con_get_workspace is external). -/
def cmd_focus (focused : Con) (m : Match) (owindows : List Con)
    (is_dock : Con → Bool) : String × List Nat :=
  if focused.ctype != .ct_workspace && focused.fullscreen_mode != .cf_none then
    ("\x7b\"sucess\": false\x7d", [])
  else if match_is_empty m then
    ("\x7b\"success\":false, \"error\":\"You have to specify which window/container should be focused\"\x7d", [])
  else
    ("\x7b\"success\": true\x7d",
     (owindows.filter (fun c => !is_dock c)).map Con.conId)

/-- Container layouts (L_DEFAULT / L_STACKED / L_TABBED). -/
inductive Layout
  | l_default
  | l_stacked
  | l_tabbed
deriving DecidableEq, Repr

/-- The layout-string mapping of cmd_layout (commands.c lines 1179-1186):
"stacking" is first aliased to "stacked"; then "default" and "stacked" map
to their layouts and anything else to tabbed. -/
def parse_layout (layout_str : String) : Layout :=
  let layout_str := if layout_str == "stacking" then "stacked" else layout_str
  if layout_str == "default" then .l_default
  else if layout_str == "stacked" then .l_stacked
  else .l_tabbed

/-- `cmd_layout` (commands.c lines 1178-1202): branches on emptiness of the
Match itself (the source comment: "check if the match is empty, not if the
result is empty").  Empty match: con_set_layout on the parent of the
focused container.  Otherwise: con_set_layout on every working-set entry.
The con_set_layout effects are returned as (target identity, layout)
pairs, in order. -/
def cmd_layout (m : Match) (focused : Con) (owindows : List Con)
    (layout_str : String) : String × List (Nat × Layout) :=
  let layout := parse_layout layout_str
  if match_is_empty m then
    ("\x7b\"success\": true\x7d", [(focused.parentId, layout)])
  else
    ("\x7b\"success\": true\x7d", owindows.map (fun c => (c.conId, layout)))

/-- The invariant of the nagbar tracker: at most one diagnostic process is
running, and none is running while migration_pid holds the sentinel. -/
def NagbarInv (s : NagbarState) : Prop :=
  s.outstanding ≤ 1 ∧ (s.migration_pid = none → s.outstanding = 0)

/-- A concrete stand-in regex engine for concrete evaluations: a pattern
matches exactly its own text.  The engine is external (spec §6), so
concrete instantiations may pick any engine. -/
def rm0 : Regex → String → Bool := fun r s => r.pattern == s

/-- The empty Match: every predicate absent. -/
def m0 : Match :=
  ⟨none, none, none, none, none, none, none, none, .dock_unset, .float_unset, none⟩

/-- A plain focused container for concrete evaluations. -/
def con0 : Con := ⟨1, none, none, 0, .ct_normal, .cf_none⟩

/-- Another container, distinct from con0. -/
def con1 : Con := ⟨2, none, none, 0, .ct_normal, .cf_none⟩

/-- A window of class "CLS" for the mark-exclusivity counterexample. -/
def w0 : Window := ⟨"CLS", "inst", "role", "title", "app", 7⟩

/-- A candidate carrying both a mark and a window of class "CLS". -/
def c2con : Con := ⟨3, some "markval", some w0, 0, .ct_normal, .cf_none⟩

/-- A Match whose mark regex does NOT match c2con's mark under rm0 and
whose class regex DOES match c2con's window class. -/
def m2a : Match :=
  { m0 with mark := some ⟨"nomatch"⟩, mclass := some ⟨"CLS"⟩ }

/-- m2a with only the class predicate changed (to a non-matching one). -/
def m2b : Match := { m2a with mclass := some ⟨"OTHER"⟩ }

/-- A Match whose mark regex matches c2con's mark under rm0 while its class
regex does not match c2con's window class. -/
def m2w : Match :=
  { m0 with mark := some ⟨"markval"⟩, mclass := some ⟨"OTHER"⟩ }

/-- A fullscreen (CF_OUTPUT), non-workspace focused container. -/
def fs_con : Con := ⟨9, none, none, 4, .ct_normal, .cf_output⟩

/-- A stackframe over the empty match with argument "a". -/
def f_a : Stackframe := ⟨m0, [some "a"]⟩

/-- A stackframe over the empty match with argument "b". -/
def f_b : Stackframe := ⟨m0, [some "b"]⟩

/-- A stackframe over the empty match with argument "c". -/
def f_c : Stackframe := ⟨m0, [some "c"]⟩

/-! ## Theorems -/

/-- Claim C3: a command whose Match has all predicates absent operates on
exactly the single currently focused container — the working set is
`[focused]`, of length one, whatever the container collection and regex
engine are. -/
theorem claim_C3 (rm : Regex → String → Bool) (m : Match) (focused : Con)
    (all_cons : List Con) (h : match_is_empty m = true) :
    working_set rm m focused all_cons = [focused] ∧
    (working_set rm m focused all_cons).length = 1 := by
  unfold working_set handle_empty_match
  simp [h]

/-- Concrete instance of claim_C3: the empty match over a two-container
collection resolves to the singleton focused container. -/
theorem claim_C3_witness :
    match_is_empty m0 = true ∧
    working_set rm0 m0 con0 [con0, con1] = [con0] ∧
    (working_set rm0 m0 con0 [con0, con1]).length = 1 :=
  ⟨by decide, (claim_C3 rm0 m0 con0 [con0, con1] (by decide)).1,
   (claim_C3 rm0 m0 con0 [con0, con1] (by decide)).2⟩

/-- Claim C4: when the containerId predicate is set, a candidate is kept iff
its identity equals it; the decision is the same for any other Match with
that containerId and any regex engine (no other predicate is consulted),
and the resolver is exactly the identity filter. -/
theorem claim_C4 (rm rm' : Regex → String → Bool) (m m' : Match) (cid : Nat)
    (c : Con) (ows : List Con)
    (h : m.con_id = some cid) (h' : m'.con_id = some cid) :
    keep_candidate rm m c = (c.conId == cid) ∧
    keep_candidate rm m c = keep_candidate rm' m' c ∧
    cmd_criteria_match_windows rm m ows =
      ows.filter (fun x => x.conId == cid) := by
  refine ⟨?_, ?_, ?_⟩
  · simp [keep_candidate, h]
  · simp [keep_candidate, h, h']
  · unfold cmd_criteria_match_windows
    congr 1
    funext x
    simp [keep_candidate, h]

/-- Concrete instance of claim_C4: a con_id-only match keeps exactly the
container with that identity. -/
theorem claim_C4_witness :
    keep_candidate rm0 { m0 with con_id := some 3 } c2con = (c2con.conId == 3) ∧
    keep_candidate rm0 { m0 with con_id := some 3 } c2con =
      keep_candidate rm0 { m0 with con_id := some 3, mclass := some ⟨"CLS"⟩ } c2con ∧
    cmd_criteria_match_windows rm0 { m0 with con_id := some 3 } [con0, c2con] =
      ([con0, c2con]).filter (fun x => x.conId == 3) :=
  claim_C4 rm0 rm0 { m0 with con_id := some 3 }
    { m0 with con_id := some 3, mclass := some ⟨"CLS"⟩ } 3 c2con [con0, c2con]
    rfl rfl

/-- Claim C7: cmd_MIGRATION_enable leaves both capture buffers empty from
any prior state, and running it twice equals running it once. -/
theorem claim_C7 (s : MigrationState) :
    (cmd_MIGRATION_enable s).old_stackframes = [] ∧
    (cmd_MIGRATION_enable s).new_stackframes = [] ∧
    cmd_MIGRATION_enable (cmd_MIGRATION_enable s) = cmd_MIGRATION_enable s :=
  ⟨rfl, rfl, rfl⟩

/-- Claim C10: cmd_layout branches on emptiness of the Match itself — an
empty Match applies the layout to the parent of the focused container, a
non-empty Match applies it to each working-set entry, so a non-empty Match
with an empty result set mutates nothing. -/
theorem claim_C10 (m : Match) (focused : Con) (ows : List Con) (ls : String) :
    (match_is_empty m = true →
      (cmd_layout m focused ows ls).2 = [(focused.parentId, parse_layout ls)]) ∧
    (match_is_empty m = false →
      (cmd_layout m focused ows ls).2 =
        ows.map (fun c => (c.conId, parse_layout ls))) ∧
    (match_is_empty m = false → ows = [] →
      (cmd_layout m focused ows ls).2 = []) := by
  refine ⟨fun h => ?_, fun h => ?_, fun h he => ?_⟩ <;>
    simp [cmd_layout, h]
  simp [he]

/-- Concrete instance of claim_C10: an empty match retargets the layout to
the focused container's parent; a non-empty match with zero results
performs no con_set_layout call. -/
theorem claim_C10_witness :
    (cmd_layout m0 con0 [con1] "stacking").2 = [(con0.parentId, .l_stacked)] ∧
    (cmd_layout m2a con0 [] "tabbed").2 = [] :=
  ⟨(claim_C10 m0 con0 [con1] "stacking").1 (by decide),
   (claim_C10 m2a con0 [] "tabbed").2.2 (by decide) rfl⟩

/-- Claim C2, counterexample: two Matches that agree on the (set) mark
predicate, on con_id (absent) and on everything except the class predicate
give different keep decisions on a candidate whose non-null mark fails the
mark regex — the window predicate IS evaluated on such a candidate, and a
mark-failing candidate is still kept through its window class.  The C
`else if` chain falls through to the window branch when the mark regex
does not match (commands.c lines 374-388). -/
theorem claim_C2_counterexample :
    m2a.mark = m2b.mark ∧ m2a.mark.isSome = true ∧
    m2a.con_id = none ∧ m2b.con_id = none ∧
    c2con.mark.isSome = true ∧
    m2b = { m2a with mclass := some ⟨"OTHER"⟩ } ∧
    rm0 ⟨"nomatch"⟩ "markval" = false ∧
    keep_candidate rm0 m2a c2con = true ∧
    keep_candidate rm0 m2b c2con = false := by
  decide

/-- Claim C2 as amended: with con_id absent, the mark predicate set and the
candidate carrying a non-null mark, the candidate is kept outright when the
mark regex matches (window predicates are not consulted); when the mark
regex does not match, the candidate falls through to window-predicate
matching, behaving exactly as if no mark predicate were present. -/
theorem claim_C2 (rm : Regex → String → Bool) (m : Match) (c : Con)
    (mr : Regex) (cm : String)
    (h0 : m.con_id = none) (hm : m.mark = some mr) (hc : c.mark = some cm) :
    (rm mr cm = true → keep_candidate rm m c = true) ∧
    (rm mr cm = false →
      keep_candidate rm m c = keep_candidate rm { m with mark := none } c) := by
  constructor
  · intro h
    simp [keep_candidate, h0, hm, hc, h]
  · intro h
    cases hw : c.window with
    | none => simp [keep_candidate, h0, hm, hc, h, hw]
    | some w => simp [keep_candidate, match_matches_window, h0, hm, hc, h, hw]

/-- Concrete instance of claim_C2 (as amended): a candidate whose mark
matches is kept via the mark branch even though its window class fails the
class predicate. -/
theorem claim_C2_witness :
    rm0 ⟨"markval"⟩ "markval" = true ∧
    keep_candidate rm0 m2w c2con = true :=
  ⟨by decide,
   (claim_C2 rm0 m2w c2con ⟨"markval"⟩ "markval" rfl rfl rfl).1 (by decide)⟩

/-- Claim C5: a tiling resize whose resolved parent orientation is
incompatible with the direction (horizontal parent with up/down, vertical
parent with left/right) returns the wrong-direction failure branch with
the failure reply string, and both percentages are untouched. -/
theorem claim_C5 (direction : String) (ppt : Int) (orientation : Orientation)
    (children : Nat) (cp : ℚ) (op : Option ℚ)
    (h : (orientation = .horiz ∧ (direction = "up" ∨ direction = "down")) ∨
         (orientation = .vert ∧ (direction = "left" ∨ direction = "right"))) :
    resize_tiling direction ppt orientation children cp op =
      (.wrongDirection, cp, op) ∧
    resize_reply .wrongDirection = "\x7b\"sucess\": false\x7d" := by
  obtain ⟨ho, hd | hd⟩ | ⟨ho, hd | hd⟩ := h <;> subst ho <;> subst hd <;>
    exact ⟨by simp +decide [resize_tiling], rfl⟩

/-- Concrete instance of claim_C5: growing upward inside a horizontal split
fails with the wrong-direction reply and changes nothing. -/
theorem claim_C5_witness :
    resize_tiling "up" 10 .horiz 2 (1/2 : ℚ) (some (1/2)) =
      (.wrongDirection, 1/2, some (1/2)) ∧
    resize_reply .wrongDirection = "\x7b\"sucess\": false\x7d" :=
  claim_C5 "up" 10 .horiz 2 (1/2) (some (1/2)) (Or.inl ⟨rfl, Or.inl rfl⟩)

/-- When definitelyGreaterThan holds with a nonnegative epsilon, a really is
greater than b: the compared gap exceeds a nonnegative quantity. -/
theorem definitelyGreaterThan_lt {a b e : ℚ} (he : 0 ≤ e)
    (h : definitelyGreaterThan a b e = true) : b < a := by
  unfold definitelyGreaterThan at h
  rw [decide_eq_true_eq] at h
  have hm : (0:ℚ) ≤ (if |a| < |b| then |b| else |a|) := by
    split <;> exact abs_nonneg _
  nlinarith [mul_nonneg hm he]

/-- The floor check fails on a candidate percentage of 4% (= 1/25): it is
not definitely greater than 5% (= 1/20). -/
theorem dgt_four_percent_false :
    definitelyGreaterThan ((1:ℚ)/25) (1/20) DBL_EPSILON = false := by
  unfold definitelyGreaterThan DBL_EPSILON
  rw [decide_eq_false_iff_not]
  rw [abs_of_nonneg (by norm_num : (0:ℚ) ≤ 1/25),
      abs_of_nonneg (by norm_num : (0:ℚ) ≤ 1/20)]
  norm_num

/-- Claim C1, counterexample: with an unset current percent (0.0), a sibling
at 0.5, a 100-child parent and ppt = 46, the floor check fails and the
resize is "skipped" — yet the current percent has been zero-initialized to
1/100, so it is neither unchanged (it was 0) nor equal to current + ppt/100,
and it is left at a value ≤ 0.05 − ε.  The zero-initialization of
commands.c lines 609-612 runs before the floor check, so a skipped resize
still mutates an unset percent. -/
theorem claim_C1_counterexample :
    resize_tiling "right" 46 .horiz 100 0 (some (1/2)) =
      (.atMinimum, 1/100, some (1/2)) ∧
    (1:ℚ)/100 ≠ 0 ∧ (1:ℚ)/100 ≠ 0 + 46/100 ∧
    (1:ℚ)/100 ≤ 5/100 - DBL_EPSILON := by
  refine ⟨?_, by norm_num, by norm_num, by norm_num [DBL_EPSILON]⟩
  unfold resize_tiling
  norm_num
  rw [if_neg (by decide :
    ¬((("right":String) = "up" ∨ ("right":String) = "down") ∨
      Orientation.horiz = Orientation.vert))]
  rw [dgt_four_percent_false]
  simp

/-- Claim C1 as amended: for percentages that are already initialized (both
nonzero, 0.0 being the "unset" marker), the tiling resize either leaves
both percentages exactly unchanged, or updates them in place to
current + ppt/100 and other − ppt/100 — and the update happens exactly in
the resized branch, only when both candidates are definitely greater than
the 0.05 floor under the relative-epsilon comparison, in which case both
new values are above 0.05 and hence above 0.05 − ε. -/
theorem claim_C1 (direction : String) (ppt : Int) (orientation : Orientation)
    (children : Nat) (cp op : ℚ) (r : ResizeOutcome × ℚ × Option ℚ)
    (hc : cp ≠ 0) (ho : op ≠ 0)
    (hr : r = resize_tiling direction ppt orientation children cp (some op)) :
    (r.1 ≠ .resized ∧ r.2.1 = cp ∧ r.2.2 = some op) ∨
    (r.1 = .resized ∧
     definitelyGreaterThan (cp + (ppt:ℚ)/100) (5/100) DBL_EPSILON = true ∧
     definitelyGreaterThan (op - (ppt:ℚ)/100) (5/100) DBL_EPSILON = true ∧
     r.2.1 = cp + (ppt:ℚ)/100 ∧ r.2.2 = some (op - (ppt:ℚ)/100) ∧
     (5:ℚ)/100 < cp + (ppt:ℚ)/100 ∧ (5:ℚ)/100 < op - (ppt:ℚ)/100 ∧
     (5:ℚ)/100 - DBL_EPSILON < cp + (ppt:ℚ)/100 ∧
     (5:ℚ)/100 - DBL_EPSILON < op - (ppt:ℚ)/100) := by
  have heps : (0:ℚ) ≤ DBL_EPSILON := by norm_num [DBL_EPSILON]
  have hepspos : (0:ℚ) < DBL_EPSILON := by norm_num [DBL_EPSILON]
  subst hr
  unfold resize_tiling
  simp only [if_neg hc, if_neg ho]
  split
  · exact Or.inl ⟨by simp, rfl, rfl⟩
  · split
    · rename_i hg
      rw [Bool.and_eq_true] at hg
      have h1 := definitelyGreaterThan_lt heps hg.1
      have h2 := definitelyGreaterThan_lt heps hg.2
      exact Or.inr ⟨rfl, hg.1, hg.2, rfl, rfl, h1, h2, by linarith, by linarith⟩
    · exact Or.inl ⟨by simp, rfl, rfl⟩

/-- Concrete instance of claim_C1 (as amended): growing right by 10 ppt from
two initialized 50% siblings. -/
theorem claim_C1_witness :
    ((resize_tiling "right" 10 .horiz 2 ((1:ℚ)/2) (some (1/2))).1 ≠ .resized ∧
     (resize_tiling "right" 10 .horiz 2 ((1:ℚ)/2) (some (1/2))).2.1 = 1/2 ∧
     (resize_tiling "right" 10 .horiz 2 ((1:ℚ)/2) (some (1/2))).2.2 = some (1/2)) ∨
    ((resize_tiling "right" 10 .horiz 2 ((1:ℚ)/2) (some (1/2))).1 = .resized ∧
     definitelyGreaterThan ((1:ℚ)/2 + ((10:ℤ):ℚ)/100) (5/100) DBL_EPSILON = true ∧
     definitelyGreaterThan ((1:ℚ)/2 - ((10:ℤ):ℚ)/100) (5/100) DBL_EPSILON = true ∧
     (resize_tiling "right" 10 .horiz 2 ((1:ℚ)/2) (some (1/2))).2.1 =
       (1:ℚ)/2 + ((10:ℤ):ℚ)/100 ∧
     (resize_tiling "right" 10 .horiz 2 ((1:ℚ)/2) (some (1/2))).2.2 =
       some ((1:ℚ)/2 - ((10:ℤ):ℚ)/100) ∧
     (5:ℚ)/100 < (1:ℚ)/2 + ((10:ℤ):ℚ)/100 ∧ (5:ℚ)/100 < (1:ℚ)/2 - ((10:ℤ):ℚ)/100 ∧
     (5:ℚ)/100 - DBL_EPSILON < (1:ℚ)/2 + ((10:ℤ):ℚ)/100 ∧
     (5:ℚ)/100 - DBL_EPSILON < (1:ℚ)/2 - ((10:ℤ):ℚ)/100) :=
  claim_C1 "right" 10 .horiz 2 (1/2) (1/2) _ (by norm_num) (by norm_num) rfl

/-- Two regex predicates do not re_differ exactly when they are equal: both
absent, or both present with identical pattern text. -/
theorem re_differ_eq_false {a b : Option Regex} : re_differ a b = false ↔ a = b := by
  cases a with
  | none => cases b <;> simp [re_differ]
  | some r1 =>
    cases b with
    | none => simp [re_differ]
    | some r2 => cases r1; cases r2; simp [re_differ, Regex.mk.injEq]

/-- Two optional strings do not str_differ exactly when they are equal
(NULL vs non-NULL being a difference). -/
theorem str_differ_eq_false {a b : Option String} : str_differ a b = false ↔ a = b := by
  cases a <;> cases b <;> simp [str_differ]

/-- The Match comparison of cmd_MIGRATION_validate accepts exactly equal
Matches: it covers every field of the Match record, value fields by
equality and regex fields by pattern text. -/
theorem match_differs_eq_false {n o : Match} : match_differs n o = false ↔ n = o := by
  cases n; cases o
  simp only [match_differs, Bool.or_eq_false_iff, bne_eq_false_iff_eq,
    re_differ_eq_false, Match.mk.injEq]
  tauto

/-- The argument comparison of cmd_MIGRATION_validate (length, then
element-wise str_differ) accepts exactly equal argument lists. -/
theorem args_differ_eq_false (na oa : List (Option String)) :
    ((na.length != oa.length) = false ∧
     (na.zip oa).any (fun p => str_differ p.1 p.2) = false) ↔ na = oa := by
  induction na generalizing oa with
  | nil => cases oa <;> simp
  | cons a as ih =>
    cases oa with
    | nil => simp
    | cons b bs =>
      simp only [List.length_cons, List.zip_cons_cons, List.any_cons,
        Bool.or_eq_false_iff, bne_eq_false_iff_eq, Nat.add_right_cancel_iff,
        str_differ_eq_false, List.cons.injEq]
      constructor
      · rintro ⟨hl, hab, hrest⟩
        exact ⟨hab, (ih bs).mp ⟨by simpa using hl, hrest⟩⟩
      · rintro ⟨hab, hrest⟩
        have := (ih bs).mpr hrest
        exact ⟨by simpa using this.1, hab, this.2⟩

/-- A frame pair passes the comparison of cmd_MIGRATION_validate exactly
when the two frames are equal (Match fields and argument lists). -/
theorem frame_differs_eq_false {n o : Stackframe} : frame_differs n o = false ↔ n = o := by
  cases n with
  | mk nm na =>
    cases o with
    | mk om oa =>
      simp only [frame_differs, Bool.or_eq_false_iff, Stackframe.mk.injEq]
      rw [and_assoc]
      exact and_congr match_differs_eq_false (args_differ_eq_false na oa)

/-- The frame loop of cmd_MIGRATION_validate reports OK exactly when the
two equal-length sequences are pairwise equal. -/
theorem validate_loop_ok (ns : List Stackframe) :
    ∀ (os : List Stackframe) (k : Nat), ns.length = os.length →
      (validate_loop k ns os = .ok ↔ ns = os) := by
  induction ns with
  | nil =>
    intro os k h
    cases os with
    | nil => simp [validate_loop]
    | cons o os => simp at h
  | cons n ns ih =>
    intro os k h
    cases os with
    | nil => simp at h
    | cons o os =>
      simp only [validate_loop]
      by_cases hd : frame_differs n o = true
      · rw [if_pos hd]
        constructor
        · intro hh; exact absurd hh (by simp)
        · intro hh
          have hno : n = o := by injection hh
          simp [frame_differs_eq_false.mpr hno] at hd
      · rw [if_neg hd]
        have hno : n = o := frame_differs_eq_false.mp (by simpa using hd)
        rw [ih os (k + 1) (by simpa using h)]
        simp [hno]

/-- The frame loop of cmd_MIGRATION_validate, on equal-length sequences
that are not equal, stops at the first differing position and reports its
index (offset by the starting counter). -/
theorem validate_loop_first (ns : List Stackframe) :
    ∀ (os : List Stackframe) (k : Nat), ns.length = os.length → ns ≠ os →
      ∃ i, validate_loop k ns os = .frameMismatch (k + i) ∧
        ns[i]? ≠ os[i]? ∧ ∀ j, j < i → ns[j]? = os[j]? := by
  induction ns with
  | nil =>
    intro os k h hne
    cases os with
    | nil => exact absurd rfl hne
    | cons o os => simp at h
  | cons n ns ih =>
    intro os k h hne
    cases os with
    | nil => simp at h
    | cons o os =>
      by_cases hd : frame_differs n o = true
      · refine ⟨0, ?_, ?_, ?_⟩
        · simp [validate_loop, hd]
        · have : n ≠ o := fun hh => by
            simp [frame_differs_eq_false.mpr hh] at hd
          simpa using this
        · intro j hj; omega
      · have hno : n = o := frame_differs_eq_false.mp (by simpa using hd)
        have hne' : ns ≠ os := fun hh => hne (by rw [hno, hh])
        obtain ⟨i, h1, h2, h3⟩ := ih os (k + 1) (by simpa using h) hne'
        refine ⟨i + 1, ?_, by simpa using h2, ?_⟩
        · rw [show k + (i + 1) = (k + 1) + i by omega]
          simpa [validate_loop, hd] using h1
        · intro j hj
          cases j with
          | zero => simp [hno]
          | succ j => simpa using h3 j (by omega)

/-- Claim C6: cmd_MIGRATION_validate reports OK exactly when the two
captured sequences are equal — same length, and positionally paired frames
agreeing on every Match value field, on every regex predicate by pattern
text (one absent vs one present is a mismatch) and on argument lists
(length, then element-wise, NULL vs non-NULL being a mismatch);
on equal-length unequal sequences it deterministically reports the first
differing frame index and compares nothing beyond it. -/
theorem claim_C6 (news olds : List Stackframe) :
    (cmd_MIGRATION_validate news olds = .ok ↔ news = olds) ∧
    (news.length = olds.length → news ≠ olds →
      ∃ i, cmd_MIGRATION_validate news olds = .frameMismatch i ∧
        news[i]? ≠ olds[i]? ∧ ∀ j, j < i → news[j]? = olds[j]?) := by
  constructor
  · by_cases hl : news.length = olds.length
    · unfold cmd_MIGRATION_validate
      rw [if_neg (by simp [hl])]
      exact validate_loop_ok news olds 0 hl
    · unfold cmd_MIGRATION_validate
      rw [if_pos (by simpa using hl)]
      constructor
      · intro hh; exact absurd hh (by simp)
      · intro hh; exact absurd (by rw [hh]) hl
  · intro hl hne
    obtain ⟨i, h1, h2, h3⟩ := validate_loop_first news olds 0 hl hne
    refine ⟨i, ?_, h2, h3⟩
    unfold cmd_MIGRATION_validate
    rw [if_neg (by simp [hl])]
    simpa using h1

/-- Concrete instance of claim_C6: two length-2 captures, first frames
identical, second frames differing in one argument string — validate
reports the mismatch at frame index 1. -/
theorem claim_C6_witness :
    ∃ i, cmd_MIGRATION_validate [f_a, f_b] [f_a, f_c] = .frameMismatch i ∧
      ([f_a, f_b])[i]? ≠ ([f_a, f_c])[i]? ∧
      ∀ j, j < i → ([f_a, f_b])[j]? = ([f_a, f_c])[j]? :=
  (claim_C6 [f_a, f_b] [f_a, f_c]).2 (by decide) (by decide)

/-- The nagbar invariant holds in every reachable state: a spawn only
happens with the handle clear (and then no process was running), and exits
only decrement. -/
theorem nagbar_inv {s : NagbarState} (h : NagbarReachable s) : NagbarInv s := by
  induction h with
  | init => exact ⟨Nat.zero_le 1, fun _ => rfl⟩
  | step s e _ ih =>
    obtain ⟨ih1, ih2⟩ := ih
    cases e with
    | fail fr =>
      by_cases hp : s.migration_pid.isSome
      · simpa [nagbar_step, hp] using ⟨ih1, ih2⟩
      · have hnone : s.migration_pid = none := by
          cases hs : s.migration_pid with
          | none => rfl
          | some p => rw [hs] at hp; simp at hp
        cases fr with
        | none => simpa [nagbar_step, hp] using ⟨ih1, ih2⟩
        | some p =>
          refine ⟨?_, ?_⟩
          · simp [nagbar_step, hp, ih2 hnone]
          · intro hc
            simp [nagbar_step, hp] at hc
    | childExit b =>
      cases b with
      | true =>
        refine ⟨?_, fun _ => ?_⟩ <;> simp [nagbar_step] <;> omega
      | false =>
        refine ⟨?_, fun hc => ?_⟩
        · simp [nagbar_step]; omega
        · have : s.migration_pid = none := by simpa [nagbar_step] using hc
          simp [nagbar_step, ih2 this]

/-- Claim C8: in every reachable state of the nagbar tracker, at most one
diagnostic process is running; while the handle is active a further FAIL is
a suppressed duplicate (the call returns with the state untouched, spawning
nothing); and the only event that deactivates an active handle is the
observation of a normal child exit. -/
theorem claim_C8 (s : NagbarState) (h : NagbarReachable s) :
    s.outstanding ≤ 1 ∧
    (∀ fr, s.migration_pid.isSome = true → nagbar_step s (.fail fr) = s) ∧
    (∀ e, s.migration_pid.isSome = true →
      (nagbar_step s e).migration_pid = none → e = .childExit true) := by
  refine ⟨(nagbar_inv h).1, ?_, ?_⟩
  · intro fr hp
    simp [nagbar_step, hp]
  · intro e hp hafter
    cases e with
    | fail fr =>
      simp [nagbar_step, hp] at hafter
      rw [hafter] at hp
      simp at hp
    | childExit b =>
      cases b with
      | true => rfl
      | false =>
        simp [nagbar_step] at hafter
        rw [hafter] at hp
        simp at hp

/-- Concrete instance of claim_C8: the state reached after one successful
spawn from the initial state. -/
theorem claim_C8_witness :
    (nagbar_step ⟨none, 0⟩ (.fail (some 5))).outstanding ≤ 1 ∧
    (∀ fr, (nagbar_step ⟨none, 0⟩ (.fail (some 5))).migration_pid.isSome = true →
      nagbar_step (nagbar_step ⟨none, 0⟩ (.fail (some 5))) (.fail fr) =
        nagbar_step ⟨none, 0⟩ (.fail (some 5))) ∧
    (∀ e, (nagbar_step ⟨none, 0⟩ (.fail (some 5))).migration_pid.isSome = true →
      (nagbar_step (nagbar_step ⟨none, 0⟩ (.fail (some 5))) e).migration_pid = none →
      e = .childExit true) :=
  claim_C8 _ (NagbarReachable.step _ _ NagbarReachable.init)

/-- Claim C9, counterexample: with the focused container fullscreen (and
not a workspace), an empty-match focus command returns the generic
fullscreen failure reply — not a payload asking that a window/container be
specified (the fullscreen guard of commands.c lines 1065-1070 runs before
the empty-match check of lines 1074-1082). -/
theorem claim_C9_counterexample :
    match_is_empty m0 = true ∧
    cmd_focus fs_con m0 [] (fun _ => false) = ("\x7b\"sucess\": false\x7d", []) ∧
    (cmd_focus fs_con m0 [] (fun _ => false)).1 ≠
      "\x7b\"success\":false, \"error\":\"You have to specify which window/container should be focused\"\x7d" := by
  refine ⟨by decide, by decide, by decide⟩

/-- Claim C9 as amended: unless the fullscreen guard fails first (focused
fullscreen and not a workspace, which yields its own generic failure
reply), cmd_focus with an empty Match does not fall back to the focused
container: it returns the failure reply asking that a window/container be
specified and focuses nothing. -/
theorem claim_C9 (focused : Con) (m : Match) (ows : List Con)
    (is_dock : Con → Bool)
    (hfs : focused.ctype = .ct_workspace ∨ focused.fullscreen_mode = .cf_none)
    (he : match_is_empty m = true) :
    cmd_focus focused m ows is_dock =
      ("\x7b\"success\":false, \"error\":\"You have to specify which window/container should be focused\"\x7d",
       []) := by
  have hguard : (focused.ctype != .ct_workspace &&
      focused.fullscreen_mode != .cf_none) = false := by
    rcases hfs with hh | hh <;> simp [hh]
  unfold cmd_focus
  simp [hguard, he]

/-- Concrete instance of claim_C9 (as amended): a non-fullscreen focused
container and the empty match. -/
theorem claim_C9_witness :
    cmd_focus con0 m0 [] (fun _ => false) =
      ("\x7b\"success\":false, \"error\":\"You have to specify which window/container should be focused\"\x7d",
       []) :=
  claim_C9 con0 m0 [] (fun _ => false) (Or.inr rfl) (by decide)

end I3
